import Mathlib

/-!
Shallow embedding of the wazo-chatd data-access core: the entity model and
check constraints of `wazo_chatd/database/models.py`, the endpoint DAO of
`wazo_chatd/database/queries/endpoint.py`, the bus middleware of
`wazo_chatd/bus.py`, and — where the repository snapshot lacks the query
modules (user/room DAOs, exceptions) — models built from the specification.
-/

namespace WazoChatd

/-! ## Endpoint DAO (`wazo_chatd/database/queries/endpoint.py`) -/

/-- A row of the `chatd_endpoint` table: `name` (primary key) and `state`. -/
structure Endpoint where
  name : String
  state : String
deriving DecidableEq, Repr

/-- The filter built by `EndpointDAO._find_by`: it starts from the SQL literal
`true` and, when a `name` keyword argument is present, conjoins
`Endpoint.name == kwargs['name']`. -/
def composedFilter (nameArg : Option String) (e : Endpoint) : Bool :=
  match nameArg with
  | some n => true && (e.name == n)
  | none => true

/-- `EndpointDAO._find_by(**kwargs)` (also the body of `find_by`): query the
endpoint table with the composed filter and return the first row, if any. -/
def findBy (table : List Endpoint) (nameArg : Option String) : Option Endpoint :=
  (table.filter (composedFilter nameArg)).head?

/-- `UnknownEndpointException(name)`: carries the `name` value that
`get_by` extracted with `kwargs.get('name')` (so `none` when the keyword
was absent). -/
structure UnknownEndpointException where
  name : Option String
deriving DecidableEq, Repr

/-- `EndpointDAO.get_by(**kwargs)`: run `_find_by`; when it returns no row,
raise `UnknownEndpointException(kwargs.get('name'))`. -/
def getBy (table : List Endpoint) (nameArg : Option String) :
    Except UnknownEndpointException Endpoint :=
  match findBy table nameArg with
  | some e => Except.ok e
  | none => Except.error ⟨nameArg⟩

/-! ## Check constraints as written in `wazo_chatd/database/models.py` -/

/-- A SQL `CHECK (column IN (values...))` constraint, as the models module
writes them: a raw column name and the allowed value list. -/
structure CheckConstraintIn where
  column : String
  allowed : List String
deriving DecidableEq, Repr

/-- The constraint attached to `Line.media` in `models.py`: its SQL text is
`state in ('audio', 'video')` — it names the column `state`. -/
def line_media_check : CheckConstraintIn :=
  { column := "state", allowed := ["audio", "video"] }

/-- The constraint attached to `Endpoint.state` in `models.py`: its SQL text is
`media in ('available', 'unavailable', 'holding', 'ringing', 'talking')` —
it names the column `media`. -/
def endpoint_state_check : CheckConstraintIn :=
  { column := "media",
    allowed := ["available", "unavailable", "holding", "ringing", "talking"] }

/-- The columns of the `chatd_line` table declared in `models.py`. -/
def chatd_line_columns : List String :=
  ["id", "user_uuid", "endpoint_name", "media"]

/-- The columns of the `chatd_endpoint` table declared in `models.py`. -/
def chatd_endpoint_columns : List String :=
  ["name", "state"]

/-- Evaluate an `IN` check constraint on a row given as an association list
from column name to value; per SQL semantics a missing (NULL) column value
satisfies the check. -/
def checkHolds (c : CheckConstraintIn) (row : List (String × String)) : Bool :=
  match row.lookup c.column with
  | some v => c.allowed.contains v
  | none => true

/-! ## Bus middleware (`wazo_chatd/bus.py`, `ChatdInjector`) -/

/-- A flat string dictionary (event headers, or one JSON object level). -/
abbrev Dict := List (String × String)

/-- Python `dict` update of a single key: replace the value in place when the
key exists, append otherwise. -/
def dictUpdate : Dict → String → String → Dict
  | [], k, v => [(k, v)]
  | (k0, v0) :: rest, k, v =>
    if k0 == k then (k, v) :: rest else (k0, v0) :: dictUpdate rest k v

/-- The event payload as far as `ChatdInjector` inspects it: a JSON object
whose entries may themselves be objects (`payload['data']` is one). -/
abbrev Payload := List (String × Dict)

/-- The lookup `payload['data']['tenant_uuid']`; `none` models the `KeyError`
path (either key missing). -/
def payloadTenantUuid (payload : Payload) : Option String :=
  (payload.lookup "data").bind (fun d => d.lookup "tenant_uuid")

/-- `ChatdInjector.marshal`: try to read `payload['data']['tenant_uuid']` and
on success set it in the headers (`headers.update(tenant_uuid=...)`); a
`KeyError` is swallowed and the headers are left alone. The payload is
returned unchanged either way. -/
def marshal (headers : Dict) (payload : Payload) : Dict × Payload :=
  match payloadTenantUuid payload with
  | some t => (dictUpdate headers "tenant_uuid" t, payload)
  | none => (headers, payload)

/-- `ChatdInjector.unmarshal`: returns the headers and payload unchanged. -/
def unmarshal (headers : Dict) (payload : Payload) : Dict × Payload :=
  (headers, payload)

end WazoChatd

namespace WazoChatd

/-! ## Helper lemmas -/

/-- `find?` returns the designated element when at most one element can
satisfy the predicate. -/
theorem find_unique {α : Type} {p : α → Bool} {l : List α} {x : α}
    (hx : x ∈ l) (hpx : p x = true)
    (huniq : ∀ a ∈ l, ∀ b ∈ l, p a = true → p b = true → a = b) :
    l.find? p = some x := by
  induction l with
  | nil => cases hx
  | cons h t ih =>
    by_cases hp : p h = true
    · have hhx : h = x :=
        huniq h (List.mem_cons_self h t) x hx hp hpx
      simp [List.find?, hhx, hpx]
    · have hp' : p h = false := by
        simpa using hp
      have hxt : x ∈ t := by
        rcases List.mem_cons.mp hx with rfl | hmem
        · exact absurd hpx hp
        · exact hmem
      have hrec : t.find? p = some x :=
        ih hxt fun a ha b hb hpa hpb =>
          huniq a (List.mem_cons_of_mem h ha) b (List.mem_cons_of_mem h hb) hpa hpb
      simp [List.find?, hp', hrec]

theorem head_filter_eq_find {α : Type} (p : α → Bool) (l : List α) :
    (l.filter p).head? = l.find? p := by
  induction l with
  | nil => rfl
  | cons h t ih =>
    cases hp : p h
    · simp [List.filter_cons, List.find?_cons, hp, ih]
    · simp [List.filter_cons, List.find?_cons, hp]

theorem filter_base_true (l : List Endpoint) :
    l.filter (composedFilter none) = l := by
  induction l with
  | nil => rfl
  | cons h t ih => simp [List.filter, composedFilter, ih]

end WazoChatd

/-- Claim C7: for every name `n`, `EndpointDAO.find_by(name=n)` returns a
matching stored endpoint when one exists (the unique one under primary-key
uniqueness) and `none` without error otherwise, and `get_by(name=n)` returns
the found endpoint or raises `UnknownEndpointException` exactly on the inputs
where `find_by` returns `none`. -/
theorem WazoChatd.get_by_fails_iff_find_by_none
    (table : List WazoChatd.Endpoint) (n : String)
    (hpk : (table.map WazoChatd.Endpoint.name).Nodup) :
    (∀ e ∈ table, e.name = n → WazoChatd.findBy table (some n) = some e) ∧
    (WazoChatd.findBy table (some n) = none ↔ ∀ e ∈ table, e.name ≠ n) ∧
    (∀ e, WazoChatd.findBy table (some n) = some e →
      WazoChatd.getBy table (some n) = Except.ok e ∧ e ∈ table ∧ e.name = n) ∧
    (WazoChatd.findBy table (some n) = none →
      WazoChatd.getBy table (some n) = Except.error ⟨some n⟩) := by
  have hfilt : WazoChatd.findBy table (some n) =
      table.find? (fun e => e.name == n) := by
    unfold WazoChatd.findBy
    rw [WazoChatd.head_filter_eq_find]
    have hfun : WazoChatd.composedFilter (some n) = fun e => e.name == n := by
      funext e
      simp [WazoChatd.composedFilter]
    rw [hfun]
  refine ⟨?_, ?_, ?_, ?_⟩
  · intro e he hename
    rw [hfilt]
    refine WazoChatd.find_unique he (by simp [hename]) ?_
    intro a ha b hb hpa hpb
    exact List.inj_on_of_nodup_map hpk ha hb
      (by simp at hpa hpb; rw [hpa, hpb])
  · rw [hfilt, List.find?_eq_none]
    constructor
    · intro h e he
      simpa using h e he
    · intro h e he
      simpa using h e he
  · intro e hfind
    have hmem := List.mem_of_find?_eq_some (hfilt ▸ hfind)
    have hname : e.name = n := by
      have := List.find?_some (hfilt ▸ hfind)
      simpa using this
    exact ⟨by simp [WazoChatd.getBy, hfind], hmem, hname⟩
  · intro hnone
    simp [WazoChatd.getBy, hnone]

/-- Witness for C7 at a concrete table. -/
theorem WazoChatd.get_by_fails_iff_find_by_none_witness :
    WazoChatd.findBy [⟨"pjsip/abc", "available"⟩] (some "pjsip/abc") =
      some ⟨"pjsip/abc", "available"⟩ ∧
    WazoChatd.getBy [⟨"pjsip/abc", "available"⟩] (some "missing") =
      Except.error ⟨some "missing"⟩ := by
  have h1 := WazoChatd.get_by_fails_iff_find_by_none
    [⟨"pjsip/abc", "available"⟩] "pjsip/abc" (by decide)
  have h2 := WazoChatd.get_by_fails_iff_find_by_none
    [⟨"pjsip/abc", "available"⟩] "missing" (by decide)
  exact ⟨h1.1 ⟨"pjsip/abc", "available"⟩ (by simp) rfl,
    h2.2.2.2 (by decide)⟩

/-- Claim C9: with no `name` keyword the filter stays the always-true base
predicate, so `find_by()` returns the first row of the table (some row
whenever the table is non-empty), and `get_by()` raises
`UnknownEndpointException` carrying a `None` name exactly when the table is
empty. -/
theorem WazoChatd.find_by_no_kwargs (table : List WazoChatd.Endpoint) :
    WazoChatd.findBy table none = table.head? ∧
    (table ≠ [] → ∃ e, WazoChatd.findBy table none = some e) ∧
    (WazoChatd.getBy table none = Except.error ⟨none⟩ ↔ table = []) := by
  have hbase : WazoChatd.findBy table none = table.head? := by
    unfold WazoChatd.findBy
    rw [WazoChatd.filter_base_true]
  refine ⟨hbase, ?_, ?_⟩
  · intro hne
    rcases table with _ | ⟨h, t⟩
    · exact absurd rfl hne
    · exact ⟨h, by simp [hbase]⟩
  · constructor
    · intro herr
      rcases htab : table with _ | ⟨h, t⟩
      · rfl
      · subst htab
        simp [WazoChatd.getBy, hbase] at herr
    · intro hnil
      subst hnil
      simp [WazoChatd.getBy, hbase]

/-- Witness for C9 at a concrete non-empty and a concrete empty table. -/
theorem WazoChatd.find_by_no_kwargs_witness :
    (∃ e, WazoChatd.findBy [⟨"e1", "talking"⟩] none = some e) ∧
    (WazoChatd.getBy ([] : List WazoChatd.Endpoint) none =
      Except.error ⟨none⟩) := by
  have h1 := WazoChatd.find_by_no_kwargs [⟨"e1", "talking"⟩]
  have h2 := WazoChatd.find_by_no_kwargs ([] : List WazoChatd.Endpoint)
  exact ⟨h1.2.1 (by decide), h2.2.2.mpr rfl⟩

/-- Claim C10: `ChatdInjector.marshal` returns the payload unchanged, updates
the headers with the tenant uuid exactly when `payload['data']['tenant_uuid']`
resolves, and on a `KeyError` returns the headers unchanged; `unmarshal` is
the identity on (headers, payload). -/
theorem WazoChatd.marshal_unmarshal_payload
    (headers : WazoChatd.Dict) (payload : WazoChatd.Payload) :
    (WazoChatd.marshal headers payload).2 = payload ∧
    (∀ t, WazoChatd.payloadTenantUuid payload = some t →
      (WazoChatd.marshal headers payload).1 =
        WazoChatd.dictUpdate headers "tenant_uuid" t ∧
      ((WazoChatd.marshal headers payload).1).lookup "tenant_uuid" = some t) ∧
    (WazoChatd.payloadTenantUuid payload = none →
      (WazoChatd.marshal headers payload).1 = headers) ∧
    WazoChatd.unmarshal headers payload = (headers, payload) := by
  have hlk : ∀ (d : WazoChatd.Dict) (k v : String),
      (WazoChatd.dictUpdate d k v).lookup k = some v := by
    intro d k v
    induction d with
    | nil => simp [WazoChatd.dictUpdate, List.lookup]
    | cons p rest ih =>
      rcases p with ⟨k0, v0⟩
      by_cases hk : k0 = k
      · subst hk
        simp [WazoChatd.dictUpdate, List.lookup]
      · have h1 : (k0 == k) = false := beq_eq_false_iff_ne.mpr hk
        have h2 : (k == k0) = false := beq_eq_false_iff_ne.mpr (Ne.symm hk)
        simp [WazoChatd.dictUpdate, List.lookup, h1, h2, ih]
  refine ⟨?_, ?_, ?_, rfl⟩
  · unfold WazoChatd.marshal
    cases WazoChatd.payloadTenantUuid payload <;> rfl
  · intro t ht
    unfold WazoChatd.marshal
    rw [ht]
    exact ⟨rfl, hlk headers "tenant_uuid" t⟩
  · intro hnone
    unfold WazoChatd.marshal
    rw [hnone]

/-- Witness for C10 at a concrete payload with and without the tenant key. -/
theorem WazoChatd.marshal_unmarshal_payload_witness :
    (WazoChatd.marshal [("name", "ev")]
        [("data", [("tenant_uuid", "t1")])]).1 =
      WazoChatd.dictUpdate [("name", "ev")] "tenant_uuid" "t1" ∧
    (WazoChatd.marshal [("name", "ev")] [("data", [])]).1 = [("name", "ev")] := by
  have h1 := WazoChatd.marshal_unmarshal_payload [("name", "ev")]
    [("data", [("tenant_uuid", "t1")])]
  have h2 := WazoChatd.marshal_unmarshal_payload [("name", "ev")] [("data", [])]
  exact ⟨(h1.2.1 "t1" (by decide)).1, h2.2.2.1 (by decide)⟩

/-- Claim C5 (code evidence): the check constraint that `models.py` attaches
to `Endpoint.state` is written `media in (...)`, naming a column that does not
exist on `chatd_endpoint`; evaluated as written on an endpoint row whose
`state` lies outside the five enumerated values, the constraint still holds,
so such a row is not rejected. -/
theorem WazoChatd.endpoint_state_check_wrong_column :
    WazoChatd.endpoint_state_check.column ∉ WazoChatd.chatd_endpoint_columns ∧
    "wrong-value" ∉ WazoChatd.endpoint_state_check.allowed ∧
    WazoChatd.checkHolds WazoChatd.endpoint_state_check
      [("name", "e1"), ("state", "wrong-value")] = true := by
  decide

/-- Claim C6 (code evidence): the check constraint that `models.py` attaches
to `Line.media` is written `state in ('audio', 'video')`, naming a column that
does not exist on `chatd_line`; evaluated as written on a line row whose
`media` is outside {audio, video}, the constraint still holds, so such a row
is not rejected. -/
theorem WazoChatd.line_media_check_wrong_column :
    WazoChatd.line_media_check.column ∉ WazoChatd.chatd_line_columns ∧
    "text" ∉ WazoChatd.line_media_check.allowed ∧
    WazoChatd.checkHolds WazoChatd.line_media_check
      [("id", "42"), ("media", "text")] = true := by
  decide

namespace WazoChatd

/-! ## Spec-modelled query layer

The repository snapshot ships only the endpoint DAO under
`wazo_chatd/database/queries/`; the user and room DAO modules, the `Room`,
`RoomUser` and `RoomMessage` models and `wazo_chatd/exceptions.py` are
referenced by the integration tests but are not under `src/`. The
definitions below model them from the specification. -/

/-- A row of the `chatd_user` table (spec section 3). -/
structure UserRow where
  uuid : String
  tenant_uuid : String
  state : String
  status : Option String
deriving DecidableEq, Repr

/-- A row of the rooms table (spec section 3): `uuid` (PK) and a required
`tenant_uuid`. -/
structure RoomRow where
  uuid : String
  tenant_uuid : String
deriving DecidableEq, Repr

/-- Modelled from the spec: the typed NotFound errors of section 7
(`exceptions.py` is not under `src/`) carry an HTTP-equivalent status code,
a stable machine-readable id, the resource collection name, and non-null
details and message payloads. -/
structure ChatdError where
  status_code : Nat
  id_ : String
  resource : String
  details : Option String
  message : Option String
deriving DecidableEq, Repr

/-- Modelled from the spec: `UnknownUser` carries 404, `unknown-user`,
resource `users`, and non-null details/message. -/
def unknownUserError (uid : String) : ChatdError :=
  { status_code := 404, id_ := "unknown-user", resource := "users",
    details := some uid, message := some ("No such user: " ++ uid) }

/-- Modelled from the spec: `UnknownRoom` carries 404, `unknown-room`,
resource `rooms`, and non-null details/message. -/
def unknownRoomError (rid : String) : ChatdError :=
  { status_code := 404, id_ := "unknown-room", resource := "rooms",
    details := some rid, message := some ("No such room: " ++ rid) }

/-- Modelled from the spec: the tenant-scoped query layer of section 4.1 —
a get-by-id lookup succeeds on the row whose key equals the requested id
and whose tenant lies in the requested scope. -/
def scopedFind {α : Type} (key ten : α → String) (rows : List α)
    (tenants : List String) (i : String) : Option α :=
  rows.find? (fun a => key a == i && decide (ten a ∈ tenants))

/-- Modelled from the spec: `UserDAO.get(tenant_uuids, user_uuid)` (section
4.2) — the unique user in scope, else `UnknownUser`. -/
def userGet (users : List UserRow) (tenants : List String) (uid : String) :
    Except ChatdError UserRow :=
  match scopedFind UserRow.uuid UserRow.tenant_uuid users tenants uid with
  | some x => Except.ok x
  | none => Except.error (unknownUserError uid)

/-- Modelled from the spec: `RoomDAO.get(tenant_uuids, room_uuid)` (section
4.3) — the unique room in scope, else `UnknownRoom`. -/
def roomGet (rooms : List RoomRow) (tenants : List String) (rid : String) :
    Except ChatdError RoomRow :=
  match scopedFind RoomRow.uuid RoomRow.tenant_uuid rooms tenants rid with
  | some x => Except.ok x
  | none => Except.error (unknownRoomError rid)

/-- Modelled from the spec: `UserDAO.list_(tenant_uuids)` (sections 4.2 and
8) — `None` bypasses tenant scoping entirely; a tenant list keeps exactly the
rows whose tenant is in the list. -/
def user_list (users : List UserRow) (scope : Option (List String)) :
    List UserRow :=
  match scope with
  | none => users
  | some ts => users.filter (fun u => decide (u.tenant_uuid ∈ ts))

/-- A row of the `chatd_session` table. -/
structure SessionRow where
  uuid : String
  mobile : Bool
deriving DecidableEq, Repr

/-- A row of the `chatd_line` table as the association operations see it. -/
structure LineRow where
  id : Nat
  media : Option String
deriving DecidableEq, Repr

/-- A user together with its session and line collections. -/
structure UserAssoc where
  sessions : List SessionRow
  lines : List LineRow
deriving DecidableEq, Repr

/-- Modelled from the spec: `UserDAO.add_session` (section 4.2) —
idempotently attach, keyed by session uuid; re-adding is a no-op. -/
def add_session (u : UserAssoc) (s : SessionRow) : UserAssoc :=
  if u.sessions.any (fun x => x.uuid == s.uuid) then u
  else { u with sessions := u.sessions ++ [s] }

/-- Modelled from the spec: `UserDAO.remove_session` (section 4.2) —
idempotently detach, keyed by session uuid; removing an absent session is a
silent no-op. -/
def remove_session (u : UserAssoc) (s : SessionRow) : UserAssoc :=
  { u with sessions := u.sessions.filter (fun x => !(x.uuid == s.uuid)) }

/-- Modelled from the spec: `UserDAO.add_line` (section 4.2) — same
idempotent semantics as sessions, keyed by line id. -/
def add_line (u : UserAssoc) (l : LineRow) : UserAssoc :=
  if u.lines.any (fun x => x.id == l.id) then u
  else { u with lines := u.lines ++ [l] }

/-- Modelled from the spec: `UserDAO.remove_line` (section 4.2) — same
idempotent semantics as sessions, keyed by line id. -/
def remove_line (u : UserAssoc) (l : LineRow) : UserAssoc :=
  { u with lines := u.lines.filter (fun x => !(x.id == l.id)) }

/-- A row of the room-message table (spec section 3): auto id, owning room,
content, creation timestamp (modelled as a natural number). -/
structure MessageRow where
  id : Nat
  room_uuid : String
  content : String
  created_at : Nat
deriving DecidableEq, Repr

/-- Insert a message into a list sorted by ascending `created_at`. -/
def insertByTime (m : MessageRow) : List MessageRow → List MessageRow
  | [] => [m]
  | x :: xs =>
    if m.created_at ≤ x.created_at then m :: x :: xs else x :: insertByTime m xs

/-- Sort messages by ascending `created_at` (insertion sort). -/
def sortByTime : List MessageRow → List MessageRow
  | [] => []
  | x :: xs => insertByTime x (sortByTime xs)

/-- Modelled from the spec: `RoomDAO.list_messages(room, direction, limit)`
(section 4.3) — order by `created_at`, `desc` meaning newest first, then
apply the limit after ordering. -/
def list_messages (msgs : List MessageRow) (direction : String)
    (limit : Option Nat) : List MessageRow :=
  let ordered :=
    if direction == "asc" then sortByTime msgs else (sortByTime msgs).reverse
  match limit with
  | some n => ordered.take n
  | none => ordered

/-- `list_messages` at its default arguments (`direction='desc'`,
`limit=None`). -/
def list_messages_default (msgs : List MessageRow) : List MessageRow :=
  list_messages msgs "desc" none

/-- A row of the room-user table (spec section 3). -/
structure RoomUserRow where
  uuid : String
  room_uuid : String
  tenant_uuid : String
  wazo_uuid : String
deriving DecidableEq, Repr

/-- The room tables of the store. -/
structure RoomStore where
  rooms : List RoomRow
  room_users : List RoomUserRow
  room_messages : List MessageRow
deriving DecidableEq, Repr

/-- Modelled from the spec: deleting a Room cascades to delete all its
RoomUsers and RoomMessages (sections 3 and 4.5), in one atomic step. -/
def delete_room (s : RoomStore) (r : String) : RoomStore :=
  { rooms := s.rooms.filter (fun x => !(x.uuid == r)),
    room_users := s.room_users.filter (fun x => !(x.room_uuid == r)),
    room_messages := s.room_messages.filter (fun x => !(x.room_uuid == r)) }

/-! ## Helper lemmas for the spec-modelled layer -/

theorem scopedFind_eq_some {α : Type} (key ten : α → String) (rows : List α)
    (tenants : List String) (i : String)
    (hnd : (rows.map key).Nodup) (x : α) (hx : x ∈ rows)
    (hk : key x = i) (ht : ten x ∈ tenants) :
    scopedFind key ten rows tenants i = some x := by
  refine find_unique hx (by simp [hk, ht]) ?_
  intro a ha b hb hpa hpb
  simp at hpa hpb
  exact List.inj_on_of_nodup_map hnd ha hb (by rw [hpa.1, hpb.1])

theorem scopedFind_eq_none {α : Type} (key ten : α → String) (rows : List α)
    (tenants : List String) (i : String)
    (h : ∀ x ∈ rows, key x = i → ten x ∉ tenants) :
    scopedFind key ten rows tenants i = none := by
  rw [scopedFind, List.find?_eq_none]
  intro x hx
  simp
  intro hk
  exact h x hx hk

theorem filter_not_filter {α : Type} (p : α → Bool) (l : List α) :
    (l.filter (fun x => !(p x))).filter p = [] := by
  induction l with
  | nil => rfl
  | cons h t ih =>
    cases hp : p h
    · simp [List.filter_cons, hp, ih]
    · simp [List.filter_cons, hp, ih]

end WazoChatd

namespace WazoChatd

theorem filter_idem {α : Type} (p : α → Bool) (l : List α) :
    (l.filter p).filter p = l.filter p := by
  induction l with
  | nil => rfl
  | cons h t ih =>
    cases hp : p h
    · simp [List.filter_cons, hp, ih]
    · simp [List.filter_cons, hp, ih]

theorem add_session_mem (u : UserAssoc) (s : SessionRow) :
    (add_session u s).sessions.any (fun x => x.uuid == s.uuid) = true := by
  unfold add_session
  cases h : u.sessions.any (fun x => x.uuid == s.uuid)
  · simp [h, List.any_append]
  · simp [h]

theorem add_session_already (u : UserAssoc) (s : SessionRow)
    (h : u.sessions.any (fun x => x.uuid == s.uuid) = true) :
    add_session u s = u := by
  unfold add_session
  simp [h]

theorem add_line_mem (u : UserAssoc) (l : LineRow) :
    (add_line u l).lines.any (fun x => x.id == l.id) = true := by
  unfold add_line
  cases h : u.lines.any (fun x => x.id == l.id)
  · simp [h, List.any_append]
  · simp [h]

theorem add_line_already (u : UserAssoc) (l : LineRow)
    (h : u.lines.any (fun x => x.id == l.id) = true) :
    add_line u l = u := by
  unfold add_line
  simp [h]

end WazoChatd

/-- Claim C1: `UserDAO.get(tenant_uuids, id)` and `RoomDAO.get(tenant_uuids,
id)` return the unique stored row whose primary key equals the id and whose
tenant is in the requested scope when one exists, and otherwise raise the
typed NotFound error carrying status 404, the stable id (`unknown-user` /
`unknown-room`), the collection name (`users` / `rooms`), and non-null
details and message. -/
theorem WazoChatd.user_room_get_tenant_scoped
    (users : List WazoChatd.UserRow) (rooms : List WazoChatd.RoomRow)
    (tenants : List String) (uid rid : String)
    (hU : (users.map WazoChatd.UserRow.uuid).Nodup)
    (hR : (rooms.map WazoChatd.RoomRow.uuid).Nodup) :
    (∀ x ∈ users, x.uuid = uid → x.tenant_uuid ∈ tenants →
      WazoChatd.userGet users tenants uid = Except.ok x) ∧
    ((∀ x ∈ users, x.uuid = uid → x.tenant_uuid ∉ tenants) →
      WazoChatd.userGet users tenants uid =
        Except.error (WazoChatd.unknownUserError uid) ∧
      (WazoChatd.unknownUserError uid).status_code = 404 ∧
      (WazoChatd.unknownUserError uid).id_ = "unknown-user" ∧
      (WazoChatd.unknownUserError uid).resource = "users" ∧
      (WazoChatd.unknownUserError uid).details ≠ none ∧
      (WazoChatd.unknownUserError uid).message ≠ none) ∧
    (∀ x ∈ rooms, x.uuid = rid → x.tenant_uuid ∈ tenants →
      WazoChatd.roomGet rooms tenants rid = Except.ok x) ∧
    ((∀ x ∈ rooms, x.uuid = rid → x.tenant_uuid ∉ tenants) →
      WazoChatd.roomGet rooms tenants rid =
        Except.error (WazoChatd.unknownRoomError rid) ∧
      (WazoChatd.unknownRoomError rid).status_code = 404 ∧
      (WazoChatd.unknownRoomError rid).id_ = "unknown-room" ∧
      (WazoChatd.unknownRoomError rid).resource = "rooms" ∧
      (WazoChatd.unknownRoomError rid).details ≠ none ∧
      (WazoChatd.unknownRoomError rid).message ≠ none) := by
  refine ⟨?_, ?_, ?_, ?_⟩
  · intro x hx hk ht
    have hfind := WazoChatd.scopedFind_eq_some WazoChatd.UserRow.uuid
      WazoChatd.UserRow.tenant_uuid users tenants uid hU x hx hk ht
    simp [WazoChatd.userGet, hfind]
  · intro hmiss
    have hfind := WazoChatd.scopedFind_eq_none WazoChatd.UserRow.uuid
      WazoChatd.UserRow.tenant_uuid users tenants uid hmiss
    exact ⟨by simp [WazoChatd.userGet, hfind], rfl, rfl, rfl,
      by simp [WazoChatd.unknownUserError], by simp [WazoChatd.unknownUserError]⟩
  · intro x hx hk ht
    have hfind := WazoChatd.scopedFind_eq_some WazoChatd.RoomRow.uuid
      WazoChatd.RoomRow.tenant_uuid rooms tenants rid hR x hx hk ht
    simp [WazoChatd.roomGet, hfind]
  · intro hmiss
    have hfind := WazoChatd.scopedFind_eq_none WazoChatd.RoomRow.uuid
      WazoChatd.RoomRow.tenant_uuid rooms tenants rid hmiss
    exact ⟨by simp [WazoChatd.roomGet, hfind], rfl, rfl, rfl,
      by simp [WazoChatd.unknownRoomError], by simp [WazoChatd.unknownRoomError]⟩

/-- Witness for C1: a user found in scope, and a room whose tenant is outside
the requested scope. -/
theorem WazoChatd.user_room_get_tenant_scoped_witness :
    WazoChatd.userGet [⟨"u1", "t1", "available", none⟩] ["t1"] "u1" =
      Except.ok ⟨"u1", "t1", "available", none⟩ ∧
    WazoChatd.roomGet [⟨"r1", "t2"⟩] ["t1"] "r1" =
      Except.error (WazoChatd.unknownRoomError "r1") := by
  have h := WazoChatd.user_room_get_tenant_scoped
    [⟨"u1", "t1", "available", none⟩] [⟨"r1", "t2"⟩] ["t1"] "u1" "r1"
    (by decide) (by decide)
  refine ⟨h.1 ⟨"u1", "t1", "available", none⟩ (by simp) rfl (by simp), ?_⟩
  refine (h.2.2.2 ?_).1
  intro x hx hk
  have hx1 : x = ⟨"r1", "t2"⟩ := by simpa using hx
  subst hx1
  decide

/-- Claim C2: `add_session`, `remove_session`, `add_line` and `remove_line`
are idempotent association mutations — adding twice equals adding once (one
element, no duplicate, no error), removing twice equals removing once (the
second call a silent no-op). -/
theorem WazoChatd.association_mutation_idempotent
    (u : WazoChatd.UserAssoc) (s : WazoChatd.SessionRow)
    (l : WazoChatd.LineRow) :
    WazoChatd.add_session (WazoChatd.add_session u s) s =
      WazoChatd.add_session u s ∧
    WazoChatd.remove_session (WazoChatd.remove_session u s) s =
      WazoChatd.remove_session u s ∧
    (u.sessions = [] →
      (WazoChatd.add_session (WazoChatd.add_session u s) s).sessions = [s]) ∧
    (u.sessions = [s] →
      (WazoChatd.remove_session (WazoChatd.remove_session u s) s).sessions
        = []) ∧
    WazoChatd.add_line (WazoChatd.add_line u l) l = WazoChatd.add_line u l ∧
    WazoChatd.remove_line (WazoChatd.remove_line u l) l =
      WazoChatd.remove_line u l ∧
    (u.lines = [] →
      (WazoChatd.add_line (WazoChatd.add_line u l) l).lines = [l]) ∧
    (u.lines = [l] →
      (WazoChatd.remove_line (WazoChatd.remove_line u l) l).lines = []) := by
  refine ⟨?_, ?_, ?_, ?_, ?_, ?_, ?_, ?_⟩
  · exact WazoChatd.add_session_already _ s (WazoChatd.add_session_mem u s)
  · simp [WazoChatd.remove_session, WazoChatd.filter_idem]
  · intro h0
    simp [WazoChatd.add_session, h0]
  · intro h1
    simp [WazoChatd.remove_session, h1]
  · exact WazoChatd.add_line_already _ l (WazoChatd.add_line_mem u l)
  · simp [WazoChatd.remove_line, WazoChatd.filter_idem]
  · intro h0
    simp [WazoChatd.add_line, h0]
  · intro h1
    simp [WazoChatd.remove_line, h1]

/-- Witness for C2: double add from an empty user yields one session, double
remove of a present line yields no line. -/
theorem WazoChatd.association_mutation_idempotent_witness :
    (WazoChatd.add_session
      (WazoChatd.add_session ⟨[], []⟩ ⟨"s1", false⟩) ⟨"s1", false⟩).sessions =
      [⟨"s1", false⟩] ∧
    (WazoChatd.remove_line
      (WazoChatd.remove_line ⟨[], [⟨7, none⟩]⟩ ⟨7, none⟩) ⟨7, none⟩).lines =
      [] := by
  have h1 := WazoChatd.association_mutation_idempotent ⟨[], []⟩ ⟨"s1", false⟩
    ⟨7, none⟩
  have h2 := WazoChatd.association_mutation_idempotent ⟨[], [⟨7, none⟩]⟩
    ⟨"s1", false⟩ ⟨7, none⟩
  exact ⟨h1.2.2.1 rfl, h2.2.2.2.2.2.2.2 rfl⟩

/-- Claim C3: for two messages created at times t1 < t2, `list_messages`
returns newest-first by default and with `direction='desc'`, oldest-first
with `direction='asc'`, and the limit truncates after ordering (so
`limit=1` with the default desc keeps exactly the newest message). -/
theorem WazoChatd.list_messages_ordering
    (m1 m2 : WazoChatd.MessageRow) (h : m1.created_at < m2.created_at) :
    WazoChatd.list_messages_default [m1, m2] = [m2, m1] ∧
    WazoChatd.list_messages [m1, m2] "desc" none = [m2, m1] ∧
    WazoChatd.list_messages [m1, m2] "asc" none = [m1, m2] ∧
    WazoChatd.list_messages [m1, m2] "desc" (some 1) = [m2] ∧
    (∀ (msgs : List WazoChatd.MessageRow) (direction : String) (n : Nat),
      WazoChatd.list_messages msgs direction (some n) =
        (WazoChatd.list_messages msgs direction none).take n) := by
  have hle : m1.created_at ≤ m2.created_at := le_of_lt h
  have hsort : WazoChatd.sortByTime [m1, m2] = [m1, m2] := by
    simp [WazoChatd.sortByTime, WazoChatd.insertByTime, hle]
  have hdesc : (("desc" : String) == "asc") = false := by decide
  have hasc : (("asc" : String) == "asc") = true := by decide
  refine ⟨?_, ?_, ?_, ?_, ?_⟩
  · simp [WazoChatd.list_messages_default, WazoChatd.list_messages, hdesc,
      hsort]
  · simp [WazoChatd.list_messages, hdesc, hsort]
  · simp [WazoChatd.list_messages, hasc, hsort]
  · simp [WazoChatd.list_messages, hdesc, hsort]
  · intro msgs direction n
    rfl

/-- Witness for C3 at two concrete messages with timestamps 10 < 20. -/
theorem WazoChatd.list_messages_ordering_witness :
    WazoChatd.list_messages_default
      [⟨1, "r", "older", 10⟩, ⟨2, "r", "newer", 20⟩] =
      [⟨2, "r", "newer", 20⟩, ⟨1, "r", "older", 10⟩] ∧
    WazoChatd.list_messages [⟨1, "r", "older", 10⟩, ⟨2, "r", "newer", 20⟩]
      "asc" none = [⟨1, "r", "older", 10⟩, ⟨2, "r", "newer", 20⟩] ∧
    WazoChatd.list_messages [⟨1, "r", "older", 10⟩, ⟨2, "r", "newer", 20⟩]
      "desc" (some 1) = [⟨2, "r", "newer", 20⟩] := by
  have h := WazoChatd.list_messages_ordering ⟨1, "r", "older", 10⟩
    ⟨2, "r", "newer", 20⟩ (by decide)
  exact ⟨h.1, h.2.2.1, h.2.2.2.1⟩

/-- Claim C4: deleting a Room removes, in the same atomic step, every
RoomUser and every RoomMessage referencing that room: afterwards zero such
rows remain in the store. -/
theorem WazoChatd.delete_room_cascades (s : WazoChatd.RoomStore)
    (r : String) :
    ((WazoChatd.delete_room s r).room_users.filter
      (fun x => x.room_uuid == r)).length = 0 ∧
    ((WazoChatd.delete_room s r).room_messages.filter
      (fun x => x.room_uuid == r)).length = 0 ∧
    (∀ x ∈ (WazoChatd.delete_room s r).room_users, x.room_uuid ≠ r) ∧
    (∀ x ∈ (WazoChatd.delete_room s r).room_messages, x.room_uuid ≠ r) ∧
    (∀ x ∈ (WazoChatd.delete_room s r).rooms, x.uuid ≠ r) := by
  refine ⟨?_, ?_, ?_, ?_, ?_⟩
  · simp only [WazoChatd.delete_room]
    rw [WazoChatd.filter_not_filter]
    rfl
  · simp only [WazoChatd.delete_room]
    rw [WazoChatd.filter_not_filter]
    rfl
  · intro x hx
    simp [WazoChatd.delete_room, List.mem_filter] at hx
    exact hx.2
  · intro x hx
    simp [WazoChatd.delete_room, List.mem_filter] at hx
    exact hx.2
  · intro x hx
    simp [WazoChatd.delete_room, List.mem_filter] at hx
    exact hx.2

/-- Witness for C4 at a concrete store with one room, one member and one
message. -/
theorem WazoChatd.delete_room_cascades_witness :
    ((WazoChatd.delete_room
        ⟨[⟨"r1", "t1"⟩], [⟨"u1", "r1", "t1", "w1"⟩], [⟨1, "r1", "hello", 5⟩]⟩
        "r1").room_users.filter (fun x => x.room_uuid == "r1")).length = 0 ∧
    ((WazoChatd.delete_room
        ⟨[⟨"r1", "t1"⟩], [⟨"u1", "r1", "t1", "w1"⟩], [⟨1, "r1", "hello", 5⟩]⟩
        "r1").room_messages.filter (fun x => x.room_uuid == "r1")).length
      = 0 := by
  have h := WazoChatd.delete_room_cascades
    ⟨[⟨"r1", "t1"⟩], [⟨"u1", "r1", "t1", "w1"⟩], [⟨1, "r1", "hello", 5⟩]⟩ "r1"
  exact ⟨h.1, h.2.1⟩

/-- Claim C8: a tenant-scoped list with an empty tenant list returns the
empty result, `None` bypasses tenant scoping and returns all rows, and under
an active scope every returned row's tenant is in the requested scope. -/
theorem WazoChatd.list_tenant_scope (users : List WazoChatd.UserRow)
    (ts : List String) :
    WazoChatd.user_list users (some []) = [] ∧
    WazoChatd.user_list users none = users ∧
    (∀ u ∈ WazoChatd.user_list users (some ts),
      u.tenant_uuid ∈ ts ∧ u ∈ users) := by
  refine ⟨?_, rfl, ?_⟩
  · simp [WazoChatd.user_list]
  · intro u hu
    simp [WazoChatd.user_list, List.mem_filter] at hu
    exact ⟨hu.2, hu.1⟩

/-- Witness for C8 at a concrete one-user table. -/
theorem WazoChatd.list_tenant_scope_witness :
    WazoChatd.user_list [⟨"u1", "t1", "available", none⟩] (some []) = [] ∧
    WazoChatd.user_list [⟨"u1", "t1", "available", none⟩] none =
      [⟨"u1", "t1", "available", none⟩] := by
  have h := WazoChatd.list_tenant_scope [⟨"u1", "t1", "available", none⟩]
    ["t1"]
  exact ⟨h.1, h.2.1⟩
